import Mathlib

/-!
Shallow embedding of the SeaweedFS master volume-growth controller
(`weed/server/master_grpc_server_volume.go`) and proofs about it.

External collaborators (topology tree, placement planner, token signer,
option parsers) are modelled as parameters of an environment record; the
control flow of the RPC handlers and of the scanner/executor pipeline is
translated from the Go source.
-/

namespace SeaweedFS

/-- Modelled from the spec: `ReplicaPlacement` is a triple
(otherDCs, otherRacksInSameDC, otherNodesInSameRack); the parsing code in
`weed/storage/super_block` is an external collaborator. -/
structure ReplicaPlacement where
  diffDataCenterCount : Nat
  diffRackCount : Nat
  sameRackCount : Nat
deriving DecidableEq, Repr

/-- Modelled from the spec: copy count = a + b + c + 1. -/
def ReplicaPlacement.getCopyCount (rp : ReplicaPlacement) : Nat :=
  rp.diffDataCenterCount + rp.diffRackCount + rp.sameRackCount + 1

/-- Modelled from the spec: a TTL is a (unit, count) pair; the parser in
`weed/storage/needle` is an external collaborator. -/
structure TTL where
  count : Nat
  unit : Nat
deriving DecidableEq, Repr

/-- `topology.VolumeGrowOption`, as constructed in
`MasterServer.VolumeGrow` (master_grpc_server_volume.go). -/
structure VolumeGrowOption where
  collection : String
  replicaPlacement : ReplicaPlacement
  ttl : TTL
  diskType : String
  preallocate : Int
  dataCenter : String
  rack : String
  dataNode : String
  memoryMapMaxSizeMb : Nat
deriving DecidableEq, Repr

/-- `topology.VolumeGrowRequest`. -/
structure VolumeGrowRequest where
  option : VolumeGrowOption
  count : Nat
  force : Bool
  reason : String
deriving DecidableEq, Repr

/-- Modelled from the spec: two grow requests are equal iff their Options
compare equal on every field; `Count` and `Reason` are ignored
(`topology.VolumeGrowRequest.Equals` is outside the excerpt). -/
def VolumeGrowRequest.equalsReq (a b : VolumeGrowRequest) : Bool :=
  a.option == b.option

/-- One new-volume location record produced by a growth
(`master_pb.VolumeLocation`), kept abstract. -/
abbrev VolumeLocation := String

/-- `master_pb.KeepConnectedResponse` carrying a `VolumeLocation`. -/
structure KeepConnectedResponse where
  volumeLocation : VolumeLocation
deriving DecidableEq, Repr

/-- Error values returned by the master RPC handlers. -/
inductive MasterError where
  | notLeader
  | badReplication (msg : String)
  | badTTL (msg : String)
  | insufficientCapacity (available : Int) (needed : Int)
deriving DecidableEq, Repr

/-- Aggregate stats of one volume layout (`VolumeLayout.Stats()`). -/
structure LayoutStats where
  usedSize : Nat
  fileCount : Nat
deriving DecidableEq, Repr

/-- The environment a `MasterServer` RPC handler runs in: leader oracle,
configuration, and the external collaborators (parsers, topology queries,
the volume-growth engine `vg.AutomaticGrowByType`). -/
structure MasterEnv where
  isLeader : Bool
  defaultReplicaPlacement : String
  parseReplicaPlacement : String → Except String ReplicaPlacement
  parseTTL : String → Except String TTL
  toDiskType : String → String
  preallocateSize : Int
  volumeSizeLimitMB : Nat
  maxVolumeCount : Int
  layoutStats : String → ReplicaPlacement → TTL → String → LayoutStats
  availableSpaceFor : VolumeGrowOption → Int
  dataCenterExists : String → Bool
  automaticGrowByType : VolumeGrowRequest → Except String (List VolumeLocation)

/-- `MasterServer.DoAutomaticVolumeGrow`: runs `vg.AutomaticGrowByType`;
on error it returns without broadcasting, otherwise it broadcasts one
`KeepConnectedResponse` per new volume-location record, in order.
Returns the list of broadcasts sent. -/
def DoAutomaticVolumeGrow (env : MasterEnv) (req : VolumeGrowRequest) :
    List KeepConnectedResponse :=
  match env.automaticGrowByType req with
  | .error _ => []
  | .ok newVidLocations =>
      newVidLocations.map (fun l => { volumeLocation := l })

/-- `master_pb.AssignRequest` (the fields read by `VolumeGrow`). -/
structure AssignRequest where
  collection : String
  replication : String
  ttl : String
  diskType : String
  dataCenter : String
  rack : String
  dataNode : String
  memoryMapMaxSizeMb : Nat
  writableVolumeCount : Nat
deriving DecidableEq, Repr

/-- Observable outcome of one `VolumeGrow` RPC call: the returned value
(`VolumeGrowResponse` is an empty body, embedded as `Unit`) and the side
effects performed (grow invocations and client broadcasts). -/
structure VolumeGrowEffects where
  response : Except MasterError Unit
  growCalls : List VolumeGrowRequest
  broadcasts : List KeepConnectedResponse
deriving Repr

/-- `uint32` multiplication (Go wraps modulo 2^32). -/
def uint32Mul (a b : Nat) : Nat := (a * b) % 2 ^ 32

/-- The `topology.VolumeGrowOption` literal built inside
`MasterServer.VolumeGrow` (master_grpc_server_volume.go:305-315). -/
def mkVolumeGrowOption (env : MasterEnv) (req : AssignRequest)
    (replicaPlacement : ReplicaPlacement) (ttl : TTL) : VolumeGrowOption :=
  { collection := req.collection
    replicaPlacement := replicaPlacement
    ttl := ttl
    diskType := env.toDiskType req.diskType
    preallocate := env.preallocateSize
    dataCenter := req.dataCenter
    rack := req.rack
    dataNode := req.dataNode
    memoryMapMaxSizeMb := req.memoryMapMaxSizeMb }

/-- `MasterServer.VolumeGrow` (master_grpc_server_volume.go:290-335),
translated clause by clause: leader gate; default replication; replication
and TTL parsing; option and request construction (`Force = true`);
capacity preflight `AvailableSpaceFor < replicaCount`; the data-center
existence check (whose error the source assigns to a local `err` variable
and never returns); then the synchronous `DoAutomaticVolumeGrow`. -/
def VolumeGrow (env : MasterEnv) (req : AssignRequest) : VolumeGrowEffects :=
  if !env.isLeader then
    { response := .error .notLeader, growCalls := [], broadcasts := [] }
  else
    let replication :=
      if req.replication = "" then env.defaultReplicaPlacement
      else req.replication
    match env.parseReplicaPlacement replication with
    | .error msg =>
        { response := .error (.badReplication msg), growCalls := [],
          broadcasts := [] }
    | .ok replicaPlacement =>
      match env.parseTTL req.ttl with
      | .error msg =>
          { response := .error (.badTTL msg), growCalls := [],
            broadcasts := [] }
      | .ok ttl =>
        let volumeGrowOption : VolumeGrowOption :=
          mkVolumeGrowOption env req replicaPlacement ttl
        let volumeGrowRequest : VolumeGrowRequest :=
          { option := volumeGrowOption
            count := req.writableVolumeCount
            force := true
            reason := "grpc volume grow" }
        let replicaCount : Int :=
          uint32Mul req.writableVolumeCount replicaPlacement.getCopyCount
        if env.availableSpaceFor volumeGrowOption < replicaCount then
          { response :=
              .error (.insufficientCapacity
                (env.availableSpaceFor volumeGrowOption) replicaCount)
            growCalls := [], broadcasts := [] }
        else
          -- The source computes this unknown-DC error into `err` but falls
          -- through without returning it.
          let _errAssignedButDropped : Option String :=
            if !env.dataCenterExists volumeGrowOption.dataCenter then
              some "data center not found in topology"
            else none
          { response := .ok ()
            growCalls := [volumeGrowRequest]
            broadcasts := DoAutomaticVolumeGrow env volumeGrowRequest }

/-- `master_pb.StatisticsResponse`. -/
structure StatisticsResponse where
  totalSize : Nat
  usedSize : Nat
  fileCount : Nat
deriving DecidableEq, Repr

/-- `master_pb.StatisticsRequest` (fields read by `Statistics`). -/
structure StatisticsRequest where
  collection : String
  replication : String
  ttl : String
  diskType : String
deriving DecidableEq, Repr

/-- Go `int64` wrap-around of an unbounded integer. -/
def int64Wrap (x : Int) : Int := (x + 2 ^ 63) % 2 ^ 64 - 2 ^ 63

/-- Go `uint64(x)` reinterpretation of an `int64` value. -/
def uint64OfInt64 (x : Int) : Nat := (x % 2 ^ 64).toNat

/-- `MasterServer.Statistics` (master_grpc_server_volume.go:160-188):
leader gate, default replication, replication/TTL parsing, then
`totalSize = GetMaxVolumeCount() * int64(VolumeSizeLimitMB) * 1024 * 1024`
(left-associated `int64` arithmetic, cast to `uint64`) together with the
layout's `UsedSize` and `FileCount`. -/
def Statistics (env : MasterEnv) (req : StatisticsRequest) :
    Except MasterError StatisticsResponse :=
  if !env.isLeader then .error .notLeader
  else
    let replication :=
      if req.replication = "" then env.defaultReplicaPlacement
      else req.replication
    match env.parseReplicaPlacement replication with
    | .error msg => .error (.badReplication msg)
    | .ok replicaPlacement =>
      match env.parseTTL req.ttl with
      | .error msg => .error (.badTTL msg)
      | .ok ttl =>
        let stats := env.layoutStats req.collection replicaPlacement ttl
          (env.toDiskType req.diskType)
        let totalSize : Int :=
          int64Wrap (int64Wrap (int64Wrap
            (env.maxVolumeCount * (env.volumeSizeLimitMB : Int)) * 1024) * 1024)
        .ok { totalSize := uint64OfInt64 totalSize
              usedSize := stats.usedSize
              fileCount := stats.fileCount }

/-! ## LookupVolume -/

/-- A replica location (`master_pb.Location` / `operation.Location`). -/
structure Location where
  url : String
  publicUrl : String
  dataCenter : String
  grpcPort : Nat
deriving DecidableEq, Repr

/-- One entry of the map returned by `ms.lookupVolumeId`
(`operation.LookupResult`). -/
structure LookupResult where
  volumeOrFileId : String
  locations : List Location
  error : String
deriving DecidableEq, Repr

/-- `master_pb.LookupVolumeResponse_VolumeIdLocation`. -/
structure VolumeIdLocation where
  volumeOrFileId : String
  locations : List Location
  error : String
  auth : String
deriving DecidableEq, Repr

/-- Environment of `MasterServer.LookupVolume`: the vid-keyed map built by
`ms.lookupVolumeId` and the token signer
`security.GenJwtForVolumeServer`, both external to the handler loop. -/
structure LookupEnv where
  volumeLocations : String → Option LookupResult
  genAuth : String → String

/-- Go `strings.Index(s, ",")`: index of the first comma, `-1` if none. -/
def goIndexComma (s : String) : Int :=
  match s.toList.findIdx? (fun c => c == ',') with
  | some i => (i : Int)
  | none => -1

/-- The inner loop copying `operation.Location` fields into
`master_pb.Location` records (master_grpc_server_volume.go:136-143). -/
def toPbLocations (ls : List Location) : List Location :=
  ls.map (fun loc =>
    { url := loc.url, publicUrl := loc.publicUrl
      dataCenter := loc.dataCenter, grpcPort := loc.grpcPort })

/-- The body of the `LookupVolume` loop for one input string
(master_grpc_server_volume.go:128-155): take the prefix before the first
comma as the vid only when `commaSep > 0`; skip the input when the vid is
not in the map; generate an auth token only when `commaSep > 0`. -/
def lookupOneEntry (env : LookupEnv) (volumeOrFileId : String) :
    Option VolumeIdLocation :=
  let commaSep := goIndexComma volumeOrFileId
  let vid :=
    if commaSep > 0 then String.mk (volumeOrFileId.toList.take commaSep.toNat)
    else volumeOrFileId
  match env.volumeLocations vid with
  | some result =>
      let locations := toPbLocations result.locations
      let auth :=
        if commaSep > 0 then env.genAuth result.volumeOrFileId else ""
      some { volumeOrFileId := result.volumeOrFileId, locations := locations
             error := result.error, auth := auth }
  | none => none

/-- `MasterServer.LookupVolume` (master_grpc_server_volume.go:123-158):
the `for` loop over the inputs, appending one response entry per input
whose vid is found in the `volumeLocations` map. -/
def LookupVolume (env : LookupEnv) : List String → List VolumeIdLocation
  | [] => []
  | volumeOrFileId :: rest =>
    match lookupOneEntry env volumeOrFileId with
    | some entry => entry :: LookupVolume env rest
    | none => LookupVolume env rest

/-! ## The growth controller: scanner task -/

/-- Events performed by one scanner pass, in program order. The scanner
body (master_grpc_server_volume.go:38-74) contains no call that mutates
the topology tree; `topoMutation` is in the vocabulary so that absence is
a statable fact. -/
inductive ScanEvent where
  | addGrowRequest
  | publish (r : VolumeGrowRequest)
  | topoMutation
deriving DecidableEq, Repr

/-- The per-layout inputs of one scanner pass: the guard reading
`vl.HasGrowRequest()`, the policy predicates, `vlc.ToGrowOption()` and
`vl.GetLastGrowCount()`. -/
structure LayoutScanEnv where
  hasGrowRequest : Bool
  shouldGrowVolumes : Bool
  shouldGrowVolumesByDC : String → Bool
  growOption : VolumeGrowOption
  lastGrowCount : Nat

/-- One scanner pass over a single layout
(master_grpc_server_volume.go:44-71): skip when `HasGrowRequest()`;
else either one collection-autogrow publish, or one forced per-DC publish
for every data center whose per-DC policy fires — each publish preceded
by `AddGrowRequest()`. -/
def scanLayoutEvents (dcs : List String) (env : LayoutScanEnv) :
    List ScanEvent :=
  if env.hasGrowRequest then []
  else if env.shouldGrowVolumes then
    [.addGrowRequest,
     .publish { option := env.growOption, count := env.lastGrowCount
                force := false, reason := "collection autogrow" }]
  else
    (dcs.filter env.shouldGrowVolumesByDC).flatMap (fun dc =>
      [.addGrowRequest,
       .publish { option := { env.growOption with dataCenter := dc }
                  count := env.lastGrowCount
                  force := true, reason := "per-dc autogrow" }])

/-- The inputs of one iteration of the scanner loop: the leader oracle,
`Topo.ListDataCenters()` and `Topo.ListVolumeLayoutCollections()`. -/
structure ScanIterationEnv where
  isLeader : Bool
  dcs : List String
  layouts : List LayoutScanEnv

/-- One iteration of the scanner loop (master_grpc_server_volume.go:39-73):
when not leader the iteration performs nothing (`continue`); otherwise
every layout is scanned with the shared data-center list. -/
def scanIterationEvents (env : ScanIterationEnv) : List ScanEvent :=
  if !env.isLeader then []
  else env.layouts.flatMap (scanLayoutEvents env.dcs)

/-- The requests published onto `volumeGrowthRequestChan` by a scan. -/
def publishedRequests (evs : List ScanEvent) : List VolumeGrowRequest :=
  evs.filterMap (fun e =>
    match e with
    | .publish r => some r
    | _ => none)

/-- How many `AddGrowRequest()` calls a scan performed. -/
def addGrowRequestCount (evs : List ScanEvent) : Nat :=
  evs.countP (fun e =>
    match e with
    | .addGrowRequest => true
    | _ => false)

/-- How many topology mutations a scan performed. -/
def topoMutationCount (evs : List ScanEvent) : Nat :=
  evs.countP (fun e =>
    match e with
    | .topoMutation => true
    | _ => false)

/-! ## The growth controller: per-layout pipeline state -/

/-- The controller-pipeline state of a single layout: its
`growRequestInFlight` guard, the requests published for it and not yet
consumed from `volumeGrowthRequestChan`, and the accepted requests whose
growth goroutine has not yet finished. -/
structure LayoutPipeline where
  growRequestInFlight : Bool
  pendingChan : List VolumeGrowRequest
  accepted : List VolumeGrowRequest
deriving DecidableEq, Repr

/-- Requests present in the controller's pipeline for this layout. -/
def LayoutPipeline.pendingCount (s : LayoutPipeline) : Nat :=
  s.pendingChan.length + s.accepted.length

/-- Modelled from the spec: `AddGrowRequest()` idempotently stores `true`
into the boolean `growRequestInFlight` guard; a publish enqueues on the
request channel. -/
def applyScanEvent (s : LayoutPipeline) (e : ScanEvent) : LayoutPipeline :=
  match e with
  | .addGrowRequest => { s with growRequestInFlight := true }
  | .publish r => { s with pendingChan := s.pendingChan ++ [r] }
  | .topoMutation => s

/-- One scanner pass over a layout, acting on its pipeline state; the
`HasGrowRequest()` read is the state's guard bit. -/
def scanLayoutStep (dcs : List String) (env : LayoutScanEnv)
    (s : LayoutPipeline) : LayoutPipeline :=
  (scanLayoutEvents dcs
    { env with hasGrowRequest := s.growRequestInFlight }).foldl applyScanEvent s

/-! ## The growth controller: executor dispatcher -/

/-- Events performed by the dispatcher while handling one consumed
request, including those of the spawned growth goroutine. -/
inductive ConsumerEvent where
  | sleepMs (ms : Nat)
  | doneGrowRequest
  | filterStore (r : VolumeGrowRequest)
  | growCall (r : VolumeGrowRequest)
  | broadcast (resp : KeepConnectedResponse)
  | filterDelete (r : VolumeGrowRequest)
deriving DecidableEq, Repr

/-- The environment the dispatcher reads while handling one request: the
leader oracle, the re-checked growth policy of the request's layout, and
the growth engine. -/
structure ConsumerEnv where
  isLeader : Bool
  shouldGrowVolumes : Bool
  automaticGrowByType : VolumeGrowRequest → Except String (List VolumeLocation)

/-- The dispatcher's handling of one request consumed from
`volumeGrowthRequestChan` (master_grpc_server_volume.go:78-118), with
`filterSet` the current contents of the in-flight `sync.Map`: the
not-leader discard; the dedup scan by `Equals`; the no-longer-needed
discard for non-forced requests; and the accepted path, whose goroutine
runs `DoAutomaticVolumeGrow` then `DoneGrowRequest()` then removes the
request from the filter. -/
def handleGrowRequest (env : ConsumerEnv)
    (filterSet : List VolumeGrowRequest) (req : VolumeGrowRequest) :
    List ConsumerEvent :=
  if !env.isLeader then
    [.sleepMs 1000, .doneGrowRequest]
  else
    let found := filterSet.any (fun existingReq => existingReq.equalsReq req)
    if found || (!req.force && !env.shouldGrowVolumes) then
      [.sleepMs 211, .doneGrowRequest]
    else
      [.filterStore req, .growCall req]
        ++ (match env.automaticGrowByType req with
            | .error _ => []
            | .ok locs => locs.map (fun l =>
                .broadcast { volumeLocation := l }))
        ++ [.doneGrowRequest, .filterDelete req]

/-- How many `DoneGrowRequest()` calls a handling performed. -/
def doneGrowRequestCount : List ConsumerEvent → Nat
  | [] => 0
  | .doneGrowRequest :: rest => doneGrowRequestCount rest + 1
  | _ :: rest => doneGrowRequestCount rest

/-- Whether a handling accepted the request (stored it into the in-flight
filter and launched growth). -/
def acceptsRequest (evs : List ConsumerEvent) : Bool :=
  evs.any (fun e =>
    match e with
    | .filterStore _ => true
    | _ => false)

/-! ## Concrete sample instances -/

/-- A sample master environment: leader, trivial parsers, ample space,
every data center present, growth producing one location. -/
def baseEnv : MasterEnv :=
  { isLeader := true
    defaultReplicaPlacement := "000"
    parseReplicaPlacement := fun _ => .ok ⟨0, 0, 0⟩
    parseTTL := fun _ => .ok ⟨0, 0⟩
    toDiskType := fun s => s
    preallocateSize := 0
    volumeSizeLimitMB := 30000
    maxVolumeCount := 100
    layoutStats := fun _ _ _ _ => ⟨0, 0⟩
    availableSpaceFor := fun _ => 1000
    dataCenterExists := fun _ => true
    automaticGrowByType := fun _ => .ok ["loc1"] }

/-- A sample `AssignRequest`. -/
def baseAssignReq : AssignRequest :=
  { collection := "c", replication := "000", ttl := "", diskType := ""
    dataCenter := "dc1", rack := "", dataNode := ""
    memoryMapMaxSizeMb := 0, writableVolumeCount := 1 }

/-- Environment whose topology lacks every data center. -/
def envUnknownDC : MasterEnv :=
  { baseEnv with dataCenterExists := fun _ => false }

/-- Request pinned to a data center that does not exist in `envUnknownDC`. -/
def reqUnknownDC : AssignRequest :=
  { baseAssignReq with dataCenter := "dc-missing" }

/-- Environment with zero free volume slots and copy count 2
(replica placement triple (0,0,1)). -/
def envNoSpace : MasterEnv :=
  { baseEnv with
    availableSpaceFor := fun _ => 0
    parseReplicaPlacement := fun _ => .ok ⟨0, 0, 1⟩ }

/-- Request whose `WritableVolumeCount` makes the `uint32` product
`WritableVolumeCount * copyCount` wrap to zero. -/
def reqOverflowCount : AssignRequest :=
  { baseAssignReq with writableVolumeCount := 2 ^ 31 }

/-- Environment with zero free slots and copy count 1. -/
def envNoSpaceSingle : MasterEnv :=
  { baseEnv with availableSpaceFor := fun _ => 0 }

/-- A sample `StatisticsRequest`. -/
def baseStatReq : StatisticsRequest :=
  { collection := "c", replication := "000", ttl := "", diskType := "" }

/-- A topology so large that `maxVolumeCount * volumeSizeLimitMB` already
overflows `int64`. -/
def envStatsOverflow : MasterEnv :=
  { baseEnv with maxVolumeCount := 2 ^ 40, volumeSizeLimitMB := 2 ^ 30 }

/-- A sample grow option. -/
def sampleGrowOption : VolumeGrowOption :=
  { collection := "c", replicaPlacement := ⟨0, 0, 0⟩, ttl := ⟨0, 0⟩
    diskType := "hdd", preallocate := 0, dataCenter := "", rack := ""
    dataNode := "", memoryMapMaxSizeMb := 0 }

/-- A sample grow request. -/
def sampleGrowReq : VolumeGrowRequest :=
  { option := sampleGrowOption, count := 1, force := false, reason := "r" }

/-- A request with the same `Option` as `sampleGrowReq` but a different
count (so `Equals` still holds). -/
def sampleGrowReqTwin : VolumeGrowRequest :=
  { sampleGrowReq with count := 5 }

/-- A layout whose collection policy is quiet but whose per-DC policy
fires for every data center, guard currently clear. -/
def scanEnvTwoShortDCs : LayoutScanEnv :=
  { hasGrowRequest := false
    shouldGrowVolumes := false
    shouldGrowVolumesByDC := fun _ => true
    growOption := sampleGrowOption
    lastGrowCount := 3 }

/-- The idle pipeline state of a layout. -/
def idlePipeline : LayoutPipeline :=
  { growRequestInFlight := false, pendingChan := [], accepted := [] }

/-- A pipeline state whose guard is already set. -/
def pipeGuardSet : LayoutPipeline :=
  { growRequestInFlight := true, pendingChan := [], accepted := [] }

/-- A scanner-iteration environment observed off-leader. -/
def scanIterEnvNotLeader : ScanIterationEnv :=
  { isLeader := false, dcs := ["dc1", "dc2"]
    layouts := [scanEnvTwoShortDCs] }

/-- A consumer environment: leader, layout still wants growth. -/
def consumerEnvLeader : ConsumerEnv :=
  { isLeader := true, shouldGrowVolumes := true
    automaticGrowByType := fun _ => .ok ["x"] }

/-- Sample replica locations. -/
def locA : Location := { url := "u1", publicUrl := "p1", dataCenter := "d1", grpcPort := 0 }

/-- Sample replica location. -/
def locB : Location := { url := "u2", publicUrl := "p2", dataCenter := "d2", grpcPort := 1 }

/-- Lookup result for the bare vid `"3"`. -/
def result3 : LookupResult := { volumeOrFileId := "3", locations := [locA], error := "" }

/-- Lookup result for the vid `"7"`. -/
def result7 : LookupResult := { volumeOrFileId := "7", locations := [locA, locB], error := "" }

/-- Lookup result whose key is the leading-comma string `",x"`. -/
def resultCommaX : LookupResult := { volumeOrFileId := ",x", locations := [locA], error := "" }

/-- A lookup environment: vids `"3"`, `"7"` and the leading-comma key
`",x"` are known; the signer always returns the non-empty token
`"sig"`. -/
def lookupEnvSample : LookupEnv :=
  { volumeLocations := fun s =>
      if s = ",x" then some resultCommaX
      else if s = "7" then some result7
      else if s = "3" then some result3
      else none
    genAuth := fun _ => "sig" }

/-! ## Helper lemmas -/

theorem doneGrowRequestCount_append (a b : List ConsumerEvent) :
    doneGrowRequestCount (a ++ b) =
      doneGrowRequestCount a + doneGrowRequestCount b := by
  induction a with
  | nil => simp [doneGrowRequestCount]
  | cons e rest ih =>
    cases e <;> simp [doneGrowRequestCount, ih]
    all_goals omega

theorem doneGrowRequestCount_broadcasts (locs : List VolumeLocation) :
    doneGrowRequestCount (locs.map (fun l =>
      ConsumerEvent.broadcast { volumeLocation := l })) = 0 := by
  induction locs with
  | nil => simp [doneGrowRequestCount]
  | cons l rest ih => simp [doneGrowRequestCount, ih]

theorem foldl_applyScanEvent_pendingCount (evs : List ScanEvent)
    (s : LayoutPipeline) :
    (evs.foldl applyScanEvent s).pendingCount =
      s.pendingCount + (publishedRequests evs).length := by
  induction evs generalizing s with
  | nil => simp [publishedRequests]
  | cons e rest ih =>
    cases e with
    | addGrowRequest =>
      rw [List.foldl_cons, applyScanEvent, ih]
      simp [publishedRequests, List.filterMap_cons, LayoutPipeline.pendingCount]
    | publish r =>
      rw [List.foldl_cons, applyScanEvent, ih]
      simp [publishedRequests, List.filterMap_cons, LayoutPipeline.pendingCount]
      omega
    | topoMutation =>
      rw [List.foldl_cons, applyScanEvent, ih]
      simp [publishedRequests, List.filterMap_cons]

theorem int64Wrap_eq_self {x : Int} (h1 : -(2 ^ 63) ≤ x) (h2 : x < 2 ^ 63) :
    int64Wrap x = x := by
  unfold int64Wrap
  have h3 : (0 : Int) ≤ x + 2 ^ 63 := by omega
  have h4 : x + 2 ^ 63 < 2 ^ 64 := by omega
  rw [Int.emod_eq_of_lt h3 h4]
  omega

theorem uint64OfInt64_eq_toNat {x : Int} (h1 : 0 ≤ x) (h2 : x < 2 ^ 64) :
    uint64OfInt64 x = x.toNat := by
  unfold uint64OfInt64
  rw [Int.emod_eq_of_lt h1 h2]

/-! ## Claim theorems: the growth controller pipeline -/

/-- C2: every request consumed from the growth request stream triggers
exactly one `DoneGrowRequest()` call on its layout, along every path: the
not-leader discard, the dedup discard, the no-longer-needed discard, and
the accepted path after `DoAutomaticVolumeGrow` completes, whether the
grow succeeded or failed. -/
theorem handleGrowRequest_doneGrowRequest_exactly_once
    (env : ConsumerEnv) (filterSet : List VolumeGrowRequest)
    (req : VolumeGrowRequest) :
    doneGrowRequestCount (handleGrowRequest env filterSet req) = 1 := by
  unfold handleGrowRequest
  cases h : env.isLeader with
  | false => simp [h, doneGrowRequestCount]
  | true =>
    simp only [h, Bool.not_true, Bool.false_eq_true, if_false]
    split
    · simp [doneGrowRequestCount]
    · split <;>
        simp [doneGrowRequestCount_append, doneGrowRequestCount,
          doneGrowRequestCount_broadcasts]

/-- C4: when a request `Option`-equal to the incoming one is still in the
in-flight filter (the two processings overlap in time), the incoming
request is not accepted — it is discarded with exactly one
`DoneGrowRequest()` call. -/
theorem handleGrowRequest_dedup_discard (env : ConsumerEnv)
    (filterSet : List VolumeGrowRequest) (req : VolumeGrowRequest)
    (h : filterSet.any (fun existingReq => existingReq.equalsReq req) = true) :
    acceptsRequest (handleGrowRequest env filterSet req) = false ∧
    doneGrowRequestCount (handleGrowRequest env filterSet req) = 1 := by
  unfold handleGrowRequest
  cases hL : env.isLeader <;>
    simp [hL, h, acceptsRequest, doneGrowRequestCount]

/-- C4 witness: a twin of `sampleGrowReq` (equal Option, different count)
sits in the filter; the incoming `sampleGrowReq` is discarded. -/
theorem handleGrowRequest_dedup_discard_witness :
    acceptsRequest (handleGrowRequest consumerEnvLeader
      [sampleGrowReqTwin] sampleGrowReq) = false ∧
    doneGrowRequestCount (handleGrowRequest consumerEnvLeader
      [sampleGrowReqTwin] sampleGrowReq) = 1 :=
  handleGrowRequest_dedup_discard consumerEnvLeader
    [sampleGrowReqTwin] sampleGrowReq (by decide)

/-- C5: a scanner iteration observed while not leader performs nothing:
no event at all, hence zero publishes, zero `AddGrowRequest()` calls and
zero topology mutations. -/
theorem scanIteration_not_leader_silent (env : ScanIterationEnv)
    (h : env.isLeader = false) :
    scanIterationEvents env = [] ∧
    publishedRequests (scanIterationEvents env) = [] ∧
    addGrowRequestCount (scanIterationEvents env) = 0 ∧
    topoMutationCount (scanIterationEvents env) = 0 := by
  simp [scanIterationEvents, h, publishedRequests, addGrowRequestCount,
    topoMutationCount]

/-- C5 witness: the concrete off-leader iteration environment. -/
theorem scanIteration_not_leader_silent_witness :
    scanIterationEvents scanIterEnvNotLeader = [] ∧
    publishedRequests (scanIterationEvents scanIterEnvNotLeader) = [] ∧
    addGrowRequestCount (scanIterationEvents scanIterEnvNotLeader) = 0 ∧
    topoMutationCount (scanIterationEvents scanIterEnvNotLeader) = 0 :=
  scanIteration_not_leader_silent scanIterEnvNotLeader rfl

/-- C3 counterexample: one scanner pass over a layout with two short data
centers, starting from the idle state, sets the guard and leaves TWO
requests pending in the pipeline at once — not exactly one. -/
theorem scanLayoutStep_two_pending_while_guard_cex :
    (scanLayoutStep ["dc1", "dc2"] scanEnvTwoShortDCs
      idlePipeline).growRequestInFlight = true ∧
    (scanLayoutStep ["dc1", "dc2"] scanEnvTwoShortDCs
      idlePipeline).pendingCount = 2 := by
  constructor <;> rfl

/-- C3 amended: while `growRequestInFlight` is true a scanner pass
publishes nothing further for the layout (the state is unchanged), and
any single pass adds at most `max 1 (number of data centers)` pending
requests — so several per-DC requests may be pending at once. -/
theorem scanLayoutStep_guard_publish_bound (dcs : List String)
    (env : LayoutScanEnv) (s : LayoutPipeline) :
    (s.growRequestInFlight = true → scanLayoutStep dcs env s = s) ∧
    (scanLayoutStep dcs env s).pendingCount ≤
      s.pendingCount + max 1 dcs.length := by
  constructor
  · intro h
    simp [scanLayoutStep, scanLayoutEvents, h]
  · rw [scanLayoutStep, foldl_applyScanEvent_pendingCount]
    have hle : (publishedRequests (scanLayoutEvents dcs
        { env with hasGrowRequest := s.growRequestInFlight })).length ≤
        max 1 dcs.length := by
      unfold scanLayoutEvents
      split
      · simp [publishedRequests]
      · split
        · simp [publishedRequests, List.filterMap_cons]
        · have key : ∀ l : List String,
              (publishedRequests (l.flatMap (fun dc =>
                [ScanEvent.addGrowRequest,
                 ScanEvent.publish
                   { option := { env.growOption with dataCenter := dc }
                     count := env.lastGrowCount
                     force := true
                     reason := "per-dc autogrow" }]))).length = l.length := by
            intro l
            induction l with
            | nil => simp [publishedRequests]
            | cons dc rest ih =>
              simp [publishedRequests, List.filterMap_cons,
                List.filterMap_append] at ih ⊢
              omega
          rw [key]
          calc (dcs.filter env.shouldGrowVolumesByDC).length
              ≤ dcs.length := List.length_filter_le _ _
            _ ≤ max 1 dcs.length := le_max_right _ _
    omega

/-- C3 amended witness: with the guard already set, the scanner pass
changes nothing. -/
theorem scanLayoutStep_guard_publish_bound_witness :
    scanLayoutStep ["dc1"] scanEnvTwoShortDCs pipeGuardSet = pipeGuardSet :=
  (scanLayoutStep_guard_publish_bound ["dc1"] scanEnvTwoShortDCs
    pipeGuardSet).1 rfl

/-! ## Claim theorems: LookupVolume -/

/-- C10: an input whose first comma is at index 0 is treated as a bare
volume id — the whole string, comma included, is the lookup key and its
entry carries no auth token; file-id treatment (prefix extraction and
token generation) applies exactly when the first comma is at index
at least 1. -/
theorem lookupVolume_comma_position_treatment (env : LookupEnv)
    (s : String) (rest : List String) :
    (goIndexComma s = 0 →
      LookupVolume env (s :: rest) =
        (match env.volumeLocations s with
         | some r => [{ volumeOrFileId := r.volumeOrFileId
                        locations := toPbLocations r.locations
                        error := r.error, auth := "" }]
         | none => []) ++ LookupVolume env rest) ∧
    (0 < goIndexComma s →
      LookupVolume env (s :: rest) =
        (match env.volumeLocations
            (String.mk (s.toList.take (goIndexComma s).toNat)) with
         | some r => [{ volumeOrFileId := r.volumeOrFileId
                        locations := toPbLocations r.locations
                        error := r.error
                        auth := env.genAuth r.volumeOrFileId }]
         | none => []) ++ LookupVolume env rest) := by
  constructor
  · intro h
    simp only [LookupVolume, lookupOneEntry, h]
    norm_num
    cases env.volumeLocations s <;> simp
  · intro h
    simp only [LookupVolume, lookupOneEntry, gt_iff_lt, h, if_true]
    cases env.volumeLocations
        (String.mk (s.toList.take (goIndexComma s).toNat)) <;> simp

/-- C10 witness: `"7,abc"` has its first comma at index 1, so the key is
the prefix `"7"` and the non-empty token is attached. -/
theorem lookupVolume_comma_position_treatment_witness :
    LookupVolume lookupEnvSample ["7,abc"] =
      [{ volumeOrFileId := "7", locations := toPbLocations [locA, locB]
         error := "", auth := "sig" }] :=
  ((lookupVolume_comma_position_treatment lookupEnvSample "7,abc" []).2
    (by decide)).trans (by decide)

/-- C6 counterexample: the input `",x"` contains a comma and its entry is
present in the response while the signer returns non-empty tokens, yet
the entry's auth is empty (and the whole string, comma included, served
as the lookup key) — refuting "non-empty auth exactly when the input
contained a comma separator". -/
theorem lookupVolume_leading_comma_auth_cex :
    (",x".toList.contains ',' = true) ∧
    lookupEnvSample.genAuth ",x" ≠ "" ∧
    LookupVolume lookupEnvSample [",x"] =
      [{ volumeOrFileId := ",x", locations := toPbLocations [locA]
         error := "", auth := "" }] := by
  refine ⟨by decide, by decide, by decide⟩

/-- C6 amended: each input whose first comma is at index at least 1 is
split there to extract the vid, while inputs with no comma or a leading
comma are used whole as the key; the response contains, in input order,
one entry per input whose key is found in the lookup map; the auth token
is non-empty (given a signer that returns non-empty tokens) exactly when
the first comma is at index at least 1; unknown keys contribute no entry
and no error. -/
theorem lookupVolume_entries_characterization (env : LookupEnv)
    (inputs : List String) (hauth : ∀ t, env.genAuth t ≠ "") :
    LookupVolume env inputs = inputs.filterMap (lookupOneEntry env) ∧
    (∀ s e, lookupOneEntry env s = some e →
      (e.auth ≠ "" ↔ 0 < goIndexComma s)) ∧
    (∀ s, 0 < goIndexComma s →
      lookupOneEntry env s =
        (env.volumeLocations
            (String.mk (s.toList.take (goIndexComma s).toNat))).map
          (fun r => { volumeOrFileId := r.volumeOrFileId
                      locations := toPbLocations r.locations
                      error := r.error
                      auth := env.genAuth r.volumeOrFileId })) ∧
    (∀ s, goIndexComma s ≤ 0 →
      lookupOneEntry env s =
        (env.volumeLocations s).map
          (fun r => { volumeOrFileId := r.volumeOrFileId
                      locations := toPbLocations r.locations
                      error := r.error, auth := "" })) := by
  refine ⟨?_, ?_, ?_, ?_⟩
  · induction inputs with
    | nil => simp [LookupVolume]
    | cons s rest ih =>
      cases h : lookupOneEntry env s <;>
        simp [LookupVolume, List.filterMap_cons, h, ih]
  · intro s e he
    by_cases hc : 0 < goIndexComma s
    · simp only [lookupOneEntry, gt_iff_lt, hc, if_true] at he
      cases hv : env.volumeLocations
          (String.mk (s.toList.take (goIndexComma s).toNat)) with
      | none => rw [hv] at he; exact absurd he (by simp)
      | some r =>
        rw [hv] at he
        simp only [Option.some_inj] at he
        subst he
        simpa [hc] using hauth r.volumeOrFileId
    · simp only [lookupOneEntry, gt_iff_lt, hc, if_false] at he
      cases hv : env.volumeLocations s with
      | none => rw [hv] at he; exact absurd he (by simp)
      | some r =>
        rw [hv] at he
        simp only [Option.some_inj] at he
        subst he
        simp [hc]
  · intro s hc
    simp only [lookupOneEntry, gt_iff_lt, hc, if_true]
    cases env.volumeLocations
        (String.mk (s.toList.take (goIndexComma s).toNat)) <;> simp
  · intro s hc
    have hc' : ¬ (goIndexComma s > 0) := by omega
    simp only [lookupOneEntry, hc', if_false]
    cases env.volumeLocations s <;> simp

/-- C6 amended witness: the mixed lookup of a bare vid, a file id and an
unknown vid (spec scenario S6). -/
theorem lookupVolume_entries_characterization_witness :
    LookupVolume lookupEnvSample ["3", "7,abc", "999"] =
      [{ volumeOrFileId := "3", locations := toPbLocations [locA]
         error := "", auth := "" },
       { volumeOrFileId := "7", locations := toPbLocations [locA, locB]
         error := "", auth := "sig" }] :=
  ((lookupVolume_entries_characterization lookupEnvSample
      ["3", "7,abc", "999"]
      (fun t => by show ("sig" : String) ≠ ""; decide)).1).trans (by decide)

/-! ## Claim theorems: VolumeGrow, Statistics, DoAutomaticVolumeGrow -/

/-- C1 (code bug): on the leader, with ample capacity but the pinned data
center absent from the topology, `VolumeGrow` computes the
"data center ... not found in topology" error into a local variable,
never returns it, still performs the growth (one grow call, broadcasts
sent) and answers with the empty success body and a nil error. -/
theorem volumeGrow_unknown_dc_error_dropped :
    envUnknownDC.dataCenterExists reqUnknownDC.dataCenter = false ∧
    (VolumeGrow envUnknownDC reqUnknownDC).response = .ok () ∧
    (VolumeGrow envUnknownDC reqUnknownDC).growCalls.length = 1 ∧
    (VolumeGrow envUnknownDC reqUnknownDC).broadcasts ≠ [] := by
  refine ⟨rfl, rfl, rfl, by decide⟩

/-- C7 counterexample: with zero free slots, copy count 2 and
`WritableVolumeCount = 2^31`, the requested replica count
`2^31 * 2 = 2^32` exceeds the available space, yet the `uint32` product
wraps to 0, the capacity preflight passes, and the call grows and
returns success instead of failing. -/
theorem volumeGrow_capacity_uint32_overflow_cex :
    reqOverflowCount.writableVolumeCount *
      ReplicaPlacement.getCopyCount ⟨0, 0, 1⟩ = 2 ^ 31 * 2 ∧
    ((2 ^ 31 * 2 : Int) > envNoSpace.availableSpaceFor
      (mkVolumeGrowOption envNoSpace reqOverflowCount ⟨0, 0, 1⟩ ⟨0, 0⟩)) ∧
    (VolumeGrow envNoSpace reqOverflowCount).response = .ok () ∧
    (VolumeGrow envNoSpace reqOverflowCount).growCalls ≠ [] := by
  refine ⟨by decide, by decide, rfl, by decide⟩

/-- C7 amended: provided the product `WritableVolumeCount * copyCount`
does not overflow `uint32`, a leader call whose product exceeds
`AvailableSpaceFor` fails with the insufficient-capacity error before any
growth is attempted: no grow call, no broadcast. -/
theorem volumeGrow_insufficient_capacity_rejects (env : MasterEnv)
    (req : AssignRequest) (rp : ReplicaPlacement) (ttl : TTL)
    (hl : env.isLeader = true)
    (hrp : env.parseReplicaPlacement
        (if req.replication = "" then env.defaultReplicaPlacement
         else req.replication) = .ok rp)
    (httl : env.parseTTL req.ttl = .ok ttl)
    (hov : req.writableVolumeCount * rp.getCopyCount < 2 ^ 32)
    (hcap : env.availableSpaceFor (mkVolumeGrowOption env req rp ttl) <
        ((req.writableVolumeCount * rp.getCopyCount : Nat) : Int)) :
    (VolumeGrow env req).response =
      .error (.insufficientCapacity
        (env.availableSpaceFor (mkVolumeGrowOption env req rp ttl))
        ((req.writableVolumeCount * rp.getCopyCount : Nat) : Int)) ∧
    (VolumeGrow env req).growCalls = [] ∧
    (VolumeGrow env req).broadcasts = [] := by
  have hmul : uint32Mul req.writableVolumeCount rp.getCopyCount =
      req.writableVolumeCount * rp.getCopyCount := Nat.mod_eq_of_lt hov
  unfold VolumeGrow
  rw [hl]
  simp only [Bool.not_true, Bool.false_eq_true, if_false, hrp, httl, hmul]
  rw [if_pos hcap]
  exact ⟨rfl, rfl, rfl⟩

/-- C7 amended witness: one volume, copy count 1, zero free slots. -/
theorem volumeGrow_insufficient_capacity_rejects_witness :
    (VolumeGrow envNoSpaceSingle baseAssignReq).response =
      .error (.insufficientCapacity 0 1) ∧
    (VolumeGrow envNoSpaceSingle baseAssignReq).growCalls = [] ∧
    (VolumeGrow envNoSpaceSingle baseAssignReq).broadcasts = [] :=
  volumeGrow_insufficient_capacity_rejects envNoSpaceSingle baseAssignReq
    ⟨0, 0, 0⟩ ⟨0, 0⟩ rfl rfl rfl (by decide) (by decide)

/-- C8 counterexample: with `maxVolumeCount = 2^40` and
`VolumeSizeLimitMB = 2^30` the `int64` product wraps to zero, so the
reported `TotalSize` is 0 rather than the claimed
`maxVolumeCount * VolumeSizeLimitMB * 1024 * 1024 = 2^90`. -/
theorem statistics_totalsize_overflow_cex :
    Statistics envStatsOverflow baseStatReq =
      .ok { totalSize := 0, usedSize := 0, fileCount := 0 } ∧
    ((2 ^ 40 * 2 ^ 30 * 1024 * 1024 : Int).toNat ≠ 0) := by
  refine ⟨rfl, by decide⟩

/-- C8 amended: `Statistics` fails with `NotLeader` off-leader; returns
the replication or TTL parse error when parsing fails; otherwise,
provided the topology aggregate is non-negative and the product fits in
`int64` (no overflow), returns `TotalSize = maxVolumeCount *
VolumeSizeLimitMB * 1024 * 1024` together with the layout's `UsedSize`
and `FileCount`. -/
theorem statistics_contract (env : MasterEnv) (req : StatisticsRequest) :
    (env.isLeader = false → Statistics env req = .error .notLeader) ∧
    (∀ msg, env.isLeader = true →
      env.parseReplicaPlacement
        (if req.replication = "" then env.defaultReplicaPlacement
         else req.replication) = .error msg →
      Statistics env req = .error (.badReplication msg)) ∧
    (∀ rp msg, env.isLeader = true →
      env.parseReplicaPlacement
        (if req.replication = "" then env.defaultReplicaPlacement
         else req.replication) = .ok rp →
      env.parseTTL req.ttl = .error msg →
      Statistics env req = .error (.badTTL msg)) ∧
    (∀ rp ttl, env.isLeader = true →
      env.parseReplicaPlacement
        (if req.replication = "" then env.defaultReplicaPlacement
         else req.replication) = .ok rp →
      env.parseTTL req.ttl = .ok ttl →
      0 ≤ env.maxVolumeCount →
      env.maxVolumeCount * (env.volumeSizeLimitMB : Int) * 1024 * 1024
        < 2 ^ 63 →
      Statistics env req = .ok
        { totalSize := (env.maxVolumeCount * (env.volumeSizeLimitMB : Int)
            * 1024 * 1024).toNat
          usedSize := (env.layoutStats req.collection rp ttl
            (env.toDiskType req.diskType)).usedSize
          fileCount := (env.layoutStats req.collection rp ttl
            (env.toDiskType req.diskType)).fileCount }) := by
  refine ⟨?_, ?_, ?_, ?_⟩
  · intro h
    simp [Statistics, h]
  · intro msg hl hrp
    unfold Statistics
    rw [hl]
    simp [hrp]
  · intro rp msg hl hrp httl
    unfold Statistics
    rw [hl]
    simp [hrp, httl]
  · intro rp ttl hl hrp httl hnn hbound
    unfold Statistics
    rw [hl]
    simp only [Bool.not_true, Bool.false_eq_true, if_false, hrp, httl]
    have hL : (0 : Int) ≤ (env.volumeSizeLimitMB : Int) :=
      Int.natCast_nonneg _
    have k1 : (0 : Int) ≤ env.maxVolumeCount * (env.volumeSizeLimitMB : Int) :=
      mul_nonneg hnn hL
    have k2 : env.maxVolumeCount * (env.volumeSizeLimitMB : Int) ≤
        env.maxVolumeCount * (env.volumeSizeLimitMB : Int) * 1024 := by
      nlinarith
    have k3 : env.maxVolumeCount * (env.volumeSizeLimitMB : Int) * 1024 ≤
        env.maxVolumeCount * (env.volumeSizeLimitMB : Int) * 1024 * 1024 := by
      nlinarith
    have w1 : int64Wrap (env.maxVolumeCount * (env.volumeSizeLimitMB : Int)) =
        env.maxVolumeCount * (env.volumeSizeLimitMB : Int) :=
      int64Wrap_eq_self (by linarith) (by linarith)
    rw [w1]
    have w2 : int64Wrap
        (env.maxVolumeCount * (env.volumeSizeLimitMB : Int) * 1024) =
        env.maxVolumeCount * (env.volumeSizeLimitMB : Int) * 1024 :=
      int64Wrap_eq_self (by linarith) (by linarith)
    rw [w2]
    have w3 : int64Wrap
        (env.maxVolumeCount * (env.volumeSizeLimitMB : Int) * 1024 * 1024) =
        env.maxVolumeCount * (env.volumeSizeLimitMB : Int) * 1024 * 1024 :=
      int64Wrap_eq_self (by linarith) (by linarith)
    rw [w3]
    rw [uint64OfInt64_eq_toNat (by linarith) (by linarith)]

/-- C8 witness: the leader success path at the sample environment. -/
theorem statistics_contract_witness :
    Statistics baseEnv baseStatReq = .ok
      { totalSize := ((100 : Int) * (30000 : Nat) * 1024 * 1024).toNat
        usedSize := 0
        fileCount := 0 } :=
  (statistics_contract baseEnv baseStatReq).2.2.2 ⟨0, 0, 0⟩ ⟨0, 0⟩
    rfl rfl rfl (by decide) (by decide)

/-- C9: `DoAutomaticVolumeGrow` broadcasts nothing when the grow attempt
fails, and otherwise broadcasts exactly one
`KeepConnectedResponse{VolumeLocation}` per produced location record, in
production order. -/
theorem doAutomaticVolumeGrow_broadcasts_per_record (env : MasterEnv)
    (req : VolumeGrowRequest) :
    (∀ msg, env.automaticGrowByType req = .error msg →
      DoAutomaticVolumeGrow env req = []) ∧
    (∀ locs, env.automaticGrowByType req = .ok locs →
      DoAutomaticVolumeGrow env req =
        locs.map (fun l => { volumeLocation := l })) := by
  constructor
  · intro msg h
    simp [DoAutomaticVolumeGrow, h]
  · intro locs h
    simp [DoAutomaticVolumeGrow, h]

/-- C9 witness: a successful growth with a single location record. -/
theorem doAutomaticVolumeGrow_broadcasts_per_record_witness :
    DoAutomaticVolumeGrow baseEnv sampleGrowReq =
      [{ volumeLocation := "loc1" }] :=
  (doAutomaticVolumeGrow_broadcasts_per_record baseEnv sampleGrowReq).2
    ["loc1"] rfl

end SeaweedFS
